import Mathlib

/-
Verification of the stagflation-watch dashboard pipeline (src/app.py).

The embedding below follows the script line by line.  Dates are modeled as
`Int` day numbers, provider values as exact rationals `Rat` (the script only
compares and does field arithmetic on them).  A provider response that raises
is modeled as `Option.none` (FRED, whose fetch has a bare `except` returning
an empty DataFrame) or `Except.error` (Yahoo, whose fetch has no handler).
Python variables that a branch leaves unassigned — and whose later use raises
`NameError` — are modeled as `Option.none` fields.
-/

set_option autoImplicit false

namespace StagWatch

/-- One observation of a FRED series: a date (day number) and a numeric value,
mirroring one row of the DataFrame built in `fetch_fred_data`. -/
structure Obs where
  date : Int
  value : Rat
deriving DecidableEq

/-- One row of the Yahoo `Adj Close` table: date index plus the three columns
downloaded at line 46 of app.py (10-yr yield, S&P 500, CRB index). -/
structure Row where
  date : Int
  tnx : Rat
  gspc : Rat
  crb : Rat
deriving DecidableEq

/-- Whether a reading came from live provider data or from the hardcoded
fallback branch of the script. -/
inductive Provenance
  | live
  | fallback
deriving DecidableEq

/-- Stable insertion of an observation into a date-sorted list. -/
def insertByDate (o : Obs) : List Obs → List Obs
  | [] => [o]
  | x :: xs => if o.date ≤ x.date then o :: x :: xs else x :: insertByDate o xs

/-- Ascending sort by date, modeling `df.sort_values('date')` at app.py:27. -/
def sortByDate (l : List Obs) : List Obs :=
  l.foldr insertByDate []

/-- Model of `fetch_fred_data` (app.py:18-29): on success the response rows are
coerced and sorted ascending by date; on any exception the function returns an
empty DataFrame.  `none` models a raising request or malformed payload. -/
def fetch_fred_data (resp : Option (List Obs)) : List Obs :=
  match resp with
  | none => []
  | some raw => sortByDate raw

/-- Model of app.py:52, `len(cpi_data[cpi_data.value > 6.5]) >= 12`: the number
of rows of the whole fetched frame whose value exceeds 6.5 is at least 12.
Note there is no date restriction in this filter. -/
def cpi_stuck (df : List Obs) : Bool :=
  decide (12 ≤ (df.filter (fun o => decide ((6.5 : Rat) < o.value))).length)

/-- The macro-side variables assigned by app.py:50-81, with the provenance of
each FRED group recorded as which branch of its `if not ...empty` ran. -/
structure MacroReadings where
  latest_cpi : Rat
  cpi_12mo_stable : Bool
  cpi_prov : Provenance
  gdp_growth : Rat
  gdp_low : Bool
  gdp_prov : Provenance
  latest_unemp : Rat
  unemp_rising : Bool
  cpi_accel : Bool
  unemp_prov : Provenance
  latest_fed : Rat
  real_rate_spread : Rat
  narrow_real : Bool
  fed_prov : Provenance
deriving DecidableEq

/-- Model of app.py:50-81: the four FRED groups, each falling back to its
hardcoded constants when its fetched frame is empty.  `iloc[0]` on the
ascending-sorted frame is the head of the list. -/
def computeMacroReadings (cpi_data gdp_data unemp_data fedfunds_data : List Obs) :
    MacroReadings :=
  let latest_cpi : Rat := match cpi_data with
    | [] => 3
    | o :: _ => o.value
  let cpi_12mo_stable : Bool := match cpi_data with
    | [] => false
    | _ :: _ => cpi_stuck cpi_data
  let cpi_prov : Provenance := match cpi_data with
    | [] => .fallback
    | _ :: _ => .live
  let gdp_growth : Rat := match gdp_data with
    | [] => 4
    | o :: _ =>
        if gdp_data.length > 1 then (o.value / (gdp_data.getD 1 o).value - 1) * 100 else 4
  let gdp_low : Bool := match gdp_data with
    | [] => false
    | _ :: _ => decide (gdp_growth < 1)
  let gdp_prov : Provenance := match gdp_data with
    | [] => .fallback
    | _ :: _ => .live
  let latest_unemp : Rat := match unemp_data with
    | [] => 4.4
    | o :: _ => o.value
  let unemp_rising : Bool := match unemp_data with
    | [] => false
    | o :: _ => decide (o.value > 5.5)
  let cpi_accel : Bool := match unemp_data with
    | [] => false
    | _ :: _ => decide (latest_cpi > 5)
  let unemp_prov : Provenance := match unemp_data with
    | [] => .fallback
    | _ :: _ => .live
  let latest_fed : Rat := match fedfunds_data with
    | [] => 4
    | o :: _ => o.value
  let real_rate_spread : Rat := match fedfunds_data with
    | [] => 1
    | _ :: _ => latest_fed - latest_cpi
  let narrow_real : Bool := match fedfunds_data with
    | [] => true
    | _ :: _ => decide (real_rate_spread < 2)
  let fed_prov : Provenance := match fedfunds_data with
    | [] => .fallback
    | _ :: _ => .live
  { latest_cpi, cpi_12mo_stable, cpi_prov, gdp_growth, gdp_low, gdp_prov,
    latest_unemp, unemp_rising, cpi_accel, unemp_prov,
    latest_fed, real_rate_spread, narrow_real, fed_prov }

/-- The market-side variables of app.py:84-99.  In the `yahoo_data.empty`
branch the script assigns only five of the eight variables; `rise_18mo`,
`spy_ytd` and `crb_12mo` stay unbound there, modeled as `none`.  `spy_ytd` is
also `none` in the live branch when no row has a date on or after January 1
(the `.iloc[0]` on the empty selection raises IndexError). -/
structure MarketVars where
  latest_10yr : Rat
  rise_18mo : Option Rat
  fast_rise : Bool
  spy_ytd : Option Rat
  stocks_flat : Bool
  crb_latest : Rat
  crb_12mo : Option Rat
  crb_surge : Bool
  prov : Provenance
deriving DecidableEq

/-- Model of app.py:84-99.  `jan1` is `today.replace(month=1, day=1)` as a day
number.  `iloc[-1]` is the last row, `iloc[-252]` is the row at position
`length - 252`, and the `.loc` selections filter by date. -/
def deriveMarketVars (rows : List Row) (jan1 : Int) : MarketVars :=
  match rows with
  | [] =>
      { latest_10yr := 4, rise_18mo := none, fast_rise := false,
        spy_ytd := none, stocks_flat := false, crb_latest := 369.6,
        crb_12mo := none, crb_surge := false, prov := .fallback }
  | r :: rs =>
      let last := rs.getLastD r
      let latest_10yr := last.tnx
      let cutoff18 := last.date - 540
      let tnxStart := ((r :: rs).filter (fun x => decide (cutoff18 ≤ x.date))).headD last
      let r18 : Rat := if (r :: rs).length > 100 then latest_10yr - tnxStart.tnx else 0.5
      let spy : Option Rat :=
        (((r :: rs).filter (fun x => decide (jan1 ≤ x.date))).head?).map
          (fun f => (last.gspc / f.gspc - 1) * 100)
      let crb_latest := last.crb
      let c12 : Rat :=
        if (r :: rs).length > 252 then
          (crb_latest / ((r :: rs).getD ((r :: rs).length - 252) r).crb - 1) * 100
        else 7.4
      { latest_10yr, rise_18mo := some r18, fast_rise := decide (r18 > 2),
        spy_ytd := spy, stocks_flat := decide (spy.getD 10.3 < 5),
        crb_latest, crb_12mo := some c12, crb_surge := decide (c12 > 50),
        prov := .live }

/-- Severity tier of one signal, the string values of the `signals` dict. -/
inductive Tier
  | red
  | yellow
  | green
deriving DecidableEq

/-- The five entries of the `signals` dict (app.py:102-108), in order. -/
structure VerdictSet where
  s1 : Tier
  s2 : Tier
  s3 : Tier
  s4 : Tier
  s5 : Tier
deriving DecidableEq

/-- Model of the `signals` dict construction at app.py:102-108, taking exactly
the variables the dict expressions read. -/
def evalSignals (latest_cpi : Rat) (cpi_12mo_stable gdp_low : Bool)
    (latest_10yr : Rat)
    (fast_rise stocks_flat crb_surge unemp_rising cpi_accel narrow_real : Bool) :
    VerdictSet :=
  { s1 := if decide (latest_cpi > 6.5) && cpi_12mo_stable && gdp_low then .red
          else if decide (latest_cpi > 5) then .yellow else .green,
    s2 := if decide (latest_10yr > 6.5) && fast_rise && stocks_flat then .red else .green,
    s3 := if crb_surge then .red else .green,
    s4 := if unemp_rising && cpi_accel then .red else .green,
    s5 := if narrow_real then .yellow else .green }

/-- Wiring of `evalSignals` to the derived variables, as the dict expressions
read them. -/
def evalFromReadings (m : MacroReadings) (k : MarketVars) : VerdictSet :=
  evalSignals m.latest_cpi m.cpi_12mo_stable m.gdp_low k.latest_10yr
    k.fast_rise k.stocks_flat k.crb_surge m.unemp_rising m.cpi_accel m.narrow_real

/-- The values of the `signals` dict, in insertion order. -/
def verdictList (v : VerdictSet) : List Tier :=
  [v.s1, v.s2, v.s3, v.s4, v.s5]

/-- Model of app.py:110, `sum(1 for status in signals.values() if status == "red")`. -/
def flashing_count (v : VerdictSet) : Nat :=
  ((verdictList v).map (fun t => if t == Tier.red then 1 else 0)).sum

/-- Model of the action banner at app.py:111: the rotation message shows
exactly when `flashing_count >= 3`. -/
def rebalanceNow (v : VerdictSet) : Bool :=
  decide (flashing_count v ≥ 3)

/-- One row of the status table: the signal name, the numeric readings
interpolated into its "Current Reading" string, and its threshold text. -/
structure StatusRow where
  signal : String
  reading : List Rat
  threshold : String
deriving DecidableEq

/-- Model of the `df_status` construction at app.py:114-131.  The reading
strings dereference `rise_18mo`, `spy_ytd` and `crb_12mo`; when any of them is
unbound (the empty-Yahoo branch ran) the f-string raises NameError. -/
def build_df_status (m : MacroReadings) (k : MarketVars) :
    Except String (List StatusRow) :=
  match k.rise_18mo, k.spy_ytd, k.crb_12mo with
  | some r18, some spy, some c12 =>
      .ok [ { signal := "Core CPI >6.5% for 12+ mo + GDP <1%",
              reading := [m.latest_cpi, m.gdp_growth],
              threshold := "Core CPI >6.5% + 2q GDP <1%" },
            { signal := "10-yr Yield +200-300bps in 18 mo + S&P YTD <5%",
              reading := [k.latest_10yr, r18, spy],
              threshold := "10-yr >6.5-7% rising + S&P <5%" },
            { signal := "CRB Index +50% in 12-18 mo",
              reading := [c12],
              threshold := "CRB +50% from low" },
            { signal := "Unemployment >5.5% rising + CPI >5%",
              reading := [m.latest_unemp, m.latest_cpi],
              threshold := "U3 >5.5% + CPI >5%" },
            { signal := "Fed Funds - Core CPI <2% (confirmation)",
              reading := [m.latest_fed, m.real_rate_spread],
              threshold := "Spread <2% for 12+ mo" } ]
  | _, _, _ => .error "NameError"

/-- The ReadingSet of one refresh: the macro variables from the four FRED
fetches and the market variables from the Yahoo table. -/
def refreshReadings (cR gR uR fR : Option (List Obs)) (rows : List Row)
    (jan1 : Int) : MacroReadings × MarketVars :=
  (computeMacroReadings (fetch_fred_data cR) (fetch_fred_data gR)
      (fetch_fred_data uR) (fetch_fred_data fR),
   deriveMarketVars rows jan1)

/-- Everything one refresh renders after the fetches: the five verdicts and
headline count (app.py:102-111), then the status table (app.py:114-131). -/
structure RenderOutcome where
  verdicts : VerdictSet
  flashing : Nat
  table : Except String (List StatusRow)

/-- One full refresh cycle.  `fetch_yahoo_data` (app.py:31-35) has no
exception handler, so a raising Yahoo download propagates and nothing renders;
a spy_ytd IndexError at app.py:89 likewise aborts before the signals are
evaluated.  Otherwise the verdicts and headline render, and the status table
build itself may still raise NameError. -/
def refresh (cR gR uR fR : Option (List Obs)) (yahooResp : Except String (List Row))
    (jan1 : Int) : Except String RenderOutcome :=
  match yahooResp with
  | .error e => .error e
  | .ok rows =>
      let m := (refreshReadings cR gR uR fR rows jan1).1
      let k := (refreshReadings cR gR uR fR rows jan1).2
      if !rows.isEmpty && k.spy_ytd.isNone then .error "IndexError"
      else
        let v := evalFromReadings m k
        .ok { verdicts := v, flashing := flashing_count v, table := build_df_status m k }

/-- Value at the maximum date of a series (the reading the spec calls the
latest value). -/
def valueAtMaxDate : List Obs → Option Rat
  | [] => none
  | o :: rest =>
      some ((rest.foldl (fun a x => if a.1 < x.date then (x.date, x.value) else a)
        (o.date, o.value)).2)

/-- Count, as the spec words it, of the observations in the trailing 12-month
window relative to the latest date whose value exceeds the threshold. -/
def windowCount (df : List Obs) (thr : Rat) : Nat :=
  let latest : Int := match df with
    | [] => 0
    | o :: rest => rest.foldl (fun a x => max a x.date) o.date
  df.countP (fun o => decide (latest - 365 ≤ o.date) && decide (thr < o.value))

/-- Trailing N-month percent change as the spec words it: latest value over
the value at the nearest available date at or before (latest date minus N
months, 30-day months), minus 1, as a percentage. -/
def spec_trailing_change (months : Int) (rows : List Row) : Option Rat :=
  match rows.getLast? with
  | none => none
  | some l =>
      match (rows.filter (fun x => decide (x.date ≤ l.date - 30 * months))).getLast? with
      | none => none
      | some a => some ((l.crb / a.crb - 1) * 100)

/-- Helper: `flashing_count` on an explicit verdict tuple is the count of red
tiers among the five. -/
lemma flashing_count_eq_countP (t1 t2 t3 t4 t5 : Tier) :
    flashing_count ⟨t1, t2, t3, t4, t5⟩ =
      ([t1, t2, t3, t4, t5].countP (fun t => t == Tier.red)) := by
  cases t1 <;> cases t2 <;> cases t3 <;> cases t4 <;> cases t5 <;> rfl

/-- Helper: a five-tier red count with a non-red fifth tier equals the count
over the first four, which is at most 4. -/
lemma countP_red_drop_t5 (t1 t2 t3 t4 t5 : Tier) (h : t5 ≠ Tier.red) :
    ([t1, t2, t3, t4, t5].countP (fun t => t == Tier.red)) =
      ([t1, t2, t3, t4].countP (fun t => t == Tier.red)) ∧
    ([t1, t2, t3, t4].countP (fun t => t == Tier.red)) ≤ 4 := by
  cases t5 with
  | red => exact absurd rfl h
  | yellow => cases t1 <;> cases t2 <;> cases t3 <;> cases t4 <;> exact ⟨rfl, by decide⟩
  | green => cases t1 <;> cases t2 <;> cases t3 <;> cases t4 <;> exact ⟨rfl, by decide⟩

/-- The FRED series used to exhibit which end of the sorted frame `iloc[0]`
reads: value 3 at day 0, value 7 at day 100, delivered most-recent-first. -/
def c2Series : List Obs :=
  fetch_fred_data (some [⟨100, 7⟩, ⟨0, 3⟩])

/-- C2 (code bug): `fetch_fred_data` sorts ascending by date, so the
`iloc[0]` reads at app.py:51, 66 and 75 take the OLDEST observation of the
fetched window, not the latest: on a series with value 3 at day 0 and value 7
at day 100, the CPI, unemployment and Fed Funds readings are all 3, while the
value at the maximum date is 7. -/
theorem C2_latest_reading_is_oldest :
    (computeMacroReadings c2Series [] [] []).latest_cpi = 3 ∧
    (computeMacroReadings [] [] c2Series []).latest_unemp = 3 ∧
    (computeMacroReadings [] [] [] c2Series).latest_fed = 3 ∧
    valueAtMaxDate c2Series = some 7 := by
  refine ⟨?_, ?_, ?_, ?_⟩ <;>
    simp [c2Series, fetch_fred_data, sortByDate, insertByDate,
      computeMacroReadings, valueAtMaxDate]

/-- C6: with every reading exactly at its rule's threshold boundary (CPI 6.5,
GDP growth 1, 10-yr yield 6.5, S&P YTD 5, commodity change 50, unemployment
5.5, Fed Funds 8.5 so that the spread is exactly 2), every threshold
comparison is strict and therefore false, so no rule's red predicate fires and
the red count is 0, whatever the sustained-CPI and 18-month-rise flags are.
Signal 1 falls to its yellow arm because the boundary CPI 6.5 still exceeds
the separate yellow threshold 5. -/
theorem C6_boundary_readings_never_fire (stable fast : Bool) :
    evalSignals 6.5 stable (decide ((1 : Rat) < 1)) 6.5 fast
        (decide ((5 : Rat) < 5)) (decide ((50 : Rat) > 50))
        (decide ((5.5 : Rat) > 5.5)) (decide ((6.5 : Rat) > 5))
        (decide ((8.5 : Rat) - 6.5 < 2)) =
      ⟨Tier.yellow, Tier.green, Tier.green, Tier.green, Tier.green⟩ ∧
    flashing_count (evalSignals 6.5 stable (decide ((1 : Rat) < 1)) 6.5 fast
        (decide ((5 : Rat) < 5)) (decide ((50 : Rat) > 50))
        (decide ((5.5 : Rat) > 5.5)) (decide ((6.5 : Rat) > 5))
        (decide ((8.5 : Rat) - 6.5 < 2))) = 0 := by
  cases stable <;> cases fast <;>
    norm_num [evalSignals, flashing_count, verdictList] <;> decide

/-- C9: the headline count of app.py:110 equals the number of the five
verdicts whose tier is red (yellow and green verdicts contribute nothing), and
the rotation banner of app.py:111 fires exactly when that count is at least 3,
as a pure function of the VerdictSet. -/
theorem C9_red_count_and_action_threshold (v : VerdictSet) :
    flashing_count v = (verdictList v).countP (fun t => t == Tier.red) ∧
    (rebalanceNow v = true ↔ 3 ≤ flashing_count v) := by
  obtain ⟨t1, t2, t3, t4, t5⟩ := v
  refine ⟨flashing_count_eq_countP t1 t2 t3 t4 t5, ?_⟩
  simp [rebalanceNow, ge_iff_le]

/-- C10: for every possible input, signal 5 is yellow or green, never red, so
the red count equals the count over signals 1-4 alone and never exceeds 4;
signal 5 therefore can never contribute toward the red_count ≥ 3 action
threshold. -/
theorem C10_rule5_never_red (latest_cpi latest_10yr : Rat)
    (stable gdp_low fast flat surge rising accel narrow : Bool) :
    (evalSignals latest_cpi stable gdp_low latest_10yr fast flat surge rising
        accel narrow).s5 ≠ Tier.red ∧
    flashing_count (evalSignals latest_cpi stable gdp_low latest_10yr fast flat
        surge rising accel narrow) =
      ([(evalSignals latest_cpi stable gdp_low latest_10yr fast flat surge
          rising accel narrow).s1,
        (evalSignals latest_cpi stable gdp_low latest_10yr fast flat surge
          rising accel narrow).s2,
        (evalSignals latest_cpi stable gdp_low latest_10yr fast flat surge
          rising accel narrow).s3,
        (evalSignals latest_cpi stable gdp_low latest_10yr fast flat surge
          rising accel narrow).s4].countP (fun t => t == Tier.red)) ∧
    flashing_count (evalSignals latest_cpi stable gdp_low latest_10yr fast flat
        surge rising accel narrow) ≤ 4 := by
  set v := evalSignals latest_cpi stable gdp_low latest_10yr fast flat surge
    rising accel narrow with hv
  have h5 : v.s5 ≠ Tier.red := by
    rw [hv]
    show (if narrow then Tier.yellow else Tier.green) ≠ Tier.red
    cases narrow <;> decide
  have hcount : flashing_count v =
      ([v.s1, v.s2, v.s3, v.s4, v.s5].countP (fun t => t == Tier.red)) :=
    flashing_count_eq_countP v.s1 v.s2 v.s3 v.s4 v.s5
  obtain ⟨hdrop, hle⟩ := countP_red_drop_t5 v.s1 v.s2 v.s3 v.s4 v.s5 h5
  exact ⟨h5, by rw [hcount, hdrop], by rw [hcount, hdrop]; exact hle⟩

/-- The ReadingSet of the C3 scenario: a single fresh CPI observation of 7.0
(so the sustained flag is false), GDP growth 0.5, and every other reading at
its green-zone benchmark value. -/
def c3Readings : MacroReadings × MarketVars :=
  refreshReadings (some [⟨0, 7⟩]) (some [⟨90, 200⟩, ⟨0, 201⟩])
    (some [⟨0, 4.4⟩]) (some [⟨0, 4⟩])
    [⟨-200, 4, 100, 300⟩, ⟨0, 4, 110, 300⟩] (-250)

/-- C3 counterexample: in a refresh whose ReadingSet has Core CPI exactly 7.0,
GDP growth exactly 0.5, and every other reading at its green-zone benchmark
(unemployment 4.4, Fed Funds 4, 10-yr 4, S&P YTD 10, commodity change 7.4),
signal 1 evaluates to yellow, not red, and the red count is 0, not 1: rule 1
additionally requires the sustained-12-month CPI flag, which a single fresh
observation leaves false. -/
theorem C3_counterexample :
    c3Readings.1.latest_cpi = 7 ∧ c3Readings.1.gdp_growth = 0.5 ∧
    c3Readings.1.latest_unemp = 4.4 ∧ c3Readings.1.latest_fed = 4 ∧
    c3Readings.2.latest_10yr = 4 ∧ c3Readings.2.spy_ytd = some 10 ∧
    c3Readings.2.crb_12mo = some 7.4 ∧
    c3Readings.1.cpi_12mo_stable = false ∧
    (evalFromReadings c3Readings.1 c3Readings.2).s1 = Tier.yellow ∧
    flashing_count (evalFromReadings c3Readings.1 c3Readings.2) = 0 := by
  refine ⟨?_, ?_, ?_, ?_, ?_, ?_, ?_, ?_, ?_, ?_⟩ <;>
    norm_num [c3Readings, refreshReadings, fetch_fred_data, sortByDate,
      insertByDate, computeMacroReadings, cpi_stuck, deriveMarketVars,
      evalFromReadings, evalSignals, flashing_count, verdictList]
  decide

/-- C3 amended: rule 1's predicate is Core CPI > 6.5 AND cpi_12mo_stable AND
GDP growth < 1.  In the C3 scenario the verdict of signal 1, and with it the
red count, is decided by the sustained flag: red and 1 when the flag holds,
yellow and 0 when it does not. -/
theorem C3_rule1_needs_sustained_flag (stable : Bool) :
    (evalSignals 7 stable (decide ((0.5 : Rat) < 1)) 4 (decide ((0.5 : Rat) > 2))
        (decide ((10.3 : Rat) < 5)) (decide ((7.4 : Rat) > 50))
        (decide ((4.4 : Rat) > 5.5)) (decide ((7 : Rat) > 5))
        (decide ((4 : Rat) - 7 < 2))).s1 =
      (if stable then Tier.red else Tier.yellow) ∧
    flashing_count (evalSignals 7 stable (decide ((0.5 : Rat) < 1)) 4
        (decide ((0.5 : Rat) > 2)) (decide ((10.3 : Rat) < 5))
        (decide ((7.4 : Rat) > 50)) (decide ((4.4 : Rat) > 5.5))
        (decide ((7 : Rat) > 5)) (decide ((4 : Rat) - 7 < 2))) =
      (if stable then 1 else 0) := by
  cases stable <;> norm_num [evalSignals, flashing_count, verdictList] <;> decide

/-- A CPI series whose 12 observations above 6.5 all lie more than 12 months
before the latest date (which itself reads 3). -/
def c7Series : List Obs :=
  [⟨-700, 7⟩, ⟨-670, 7⟩, ⟨-640, 7⟩, ⟨-610, 7⟩, ⟨-580, 7⟩, ⟨-550, 7⟩,
   ⟨-520, 7⟩, ⟨-490, 7⟩, ⟨-460, 7⟩, ⟨-430, 7⟩, ⟨-400, 7⟩, ⟨-370, 7⟩, ⟨0, 3⟩]

/-- C7 counterexample: the sustained-threshold check of app.py:52 counts every
fetched observation above 6.5 with no date restriction, so a series whose 12
high observations are all older than 12 months still sets the flag, while the
count inside the trailing 12-month window is 0, not at least 12. -/
theorem C7_counterexample :
    cpi_stuck c7Series = true ∧
    (computeMacroReadings c7Series [] [] []).cpi_12mo_stable = true ∧
    windowCount c7Series 6.5 = 0 ∧
    ¬ 12 ≤ windowCount c7Series 6.5 := by
  refine ⟨?_, ?_, ?_, ?_⟩ <;>
    norm_num [c7Series, cpi_stuck, computeMacroReadings, windowCount,
      List.countP_cons, List.countP_nil]

/-- C7 amended: the check holds exactly when at least 12 of ALL fetched
observations (the 25-row FRED window, at any date) have value above 6.5;
observations older than 12 months contribute to the count like any other. -/
theorem C7_stuck_counts_all_dates (df : List Obs) :
    cpi_stuck df = decide (12 ≤ df.countP (fun o => decide ((6.5 : Rat) < o.value))) := by
  simp [cpi_stuck, List.countP_eq_length_filter]

/-- The two-observation commodity table of the spec's own test vector: CRB 200
thirteen months (395 days) ago and 300 today. -/
def c4Rows : List Row :=
  [⟨-395, 4, 100, 200⟩, ⟨0, 4, 110, 300⟩]

/-- C4 counterexample: on the table [(13 months ago, 200), (today, 300)] the
spec formula gives a trailing-12-month change of 50, but the code computes the
change positionally from `iloc[-252]` and falls back to the constant 7.4 for
any table of at most 252 rows, so the reading is 7.4, the surge flag is off,
and rule 3 is green, not red. -/
theorem C4_counterexample :
    spec_trailing_change 12 c4Rows = some 50 ∧
    (deriveMarketVars c4Rows (-30)).crb_12mo = some 7.4 ∧
    (deriveMarketVars c4Rows (-30)).crb_surge = false ∧
    (evalFromReadings (computeMacroReadings [] [] [] [])
        (deriveMarketVars c4Rows (-30))).s3 = Tier.green := by
  refine ⟨?_, ?_, ?_, ?_⟩ <;>
    norm_num [c4Rows, spec_trailing_change, deriveMarketVars,
      computeMacroReadings, evalFromReadings, evalSignals,
      List.getLast?, List.getLastD, List.getD, List.headD]

/-- C4 amended: the commodity reading is positional, not date-resolved: for a
nonempty table it is (latest CRB over the CRB 252 rows before the end, minus
1) as a percentage when the table has more than 252 rows, and otherwise the
hardcoded constant 7.4; rule 3 trips exactly when that quantity exceeds 50. -/
theorem C4_crb_change_is_positional (r : Row) (rs : List Row) (jan1 : Int) :
    (deriveMarketVars (r :: rs) jan1).crb_12mo =
      some (if (r :: rs).length > 252 then
          ((rs.getLastD r).crb / ((r :: rs).getD ((r :: rs).length - 252) r).crb - 1) * 100
        else 7.4) ∧
    (deriveMarketVars (r :: rs) jan1).crb_surge =
      decide ((if (r :: rs).length > 252 then
          ((rs.getLastD r).crb / ((r :: rs).getD ((r :: rs).length - 252) r).crb - 1) * 100
        else (7.4 : Rat)) > 50) :=
  ⟨rfl, rfl⟩

/-- An equity table with exactly one row dated in the current year (day 5),
the other row being last year (day -300). -/
def c8Rows : List Row :=
  [⟨-300, 4, 100, 300⟩, ⟨5, 4, 110, 300⟩]

/-- C8 counterexample: with exactly one observation in the current calendar
year the YTD derivation does not fail at all — the single row is both the
anchor and the latest close, so the reading is 0; and with zero observations
in the current year the refresh dies with an uncaught IndexError, not a
DerivationError (which does not exist in the code). -/
theorem C8_counterexample :
    (c8Rows.filter (fun x => decide ((0 : Int) ≤ x.date))).length = 1 ∧
    (deriveMarketVars c8Rows 0).spy_ytd = some 0 ∧
    refresh none none none none (.ok [⟨-300, 4, 100, 300⟩]) 0 =
      .error "IndexError" := by
  refine ⟨?_, ?_, ?_⟩
  · norm_num [c8Rows]
  · norm_num [c8Rows, deriveMarketVars, List.getLastD]
  · rfl

/-- C8 amended: the year-to-date return equals (latest close over the close of
the first row dated on or after January 1, minus 1) as a percentage whenever
at least one row lies in the current year — including exactly one, where it
returns 0 instead of failing; with none, the selection is empty and the
`iloc[0]` raises an uncaught IndexError. -/
theorem C8_ytd_formula (r : Row) (rs : List Row) (jan1 : Int) :
    (deriveMarketVars (r :: rs) jan1).spy_ytd =
      ((r :: rs).filter (fun x => decide (jan1 ≤ x.date))).head?.map
        (fun f => ((rs.getLastD r).gspc / f.gspc - 1) * 100) :=
  rfl

/-- C5: when every macro fetch comes back empty (the provider threw, or
returned no data), the ReadingSet still contains all four macro readings, each
carrying fallback provenance and its hardcoded benchmark value (CPI 3, GDP
growth 4, unemployment 4.4, Fed Funds 4, spread 1, narrow_real true); the
market variables are computed from the Yahoo table alone, are identical to
those of a refresh with healthy macro responses, and carry live provenance;
conversely the macro readings are unchanged when the market table is replaced
by the empty (failed) one. -/
theorem C5_fallback_groups_independent
    (cR0 gR0 uR0 fR0 cR gR uR fR : Option (List Obs))
    (rows : List Row) (jan1 : Int)
    (hc : fetch_fred_data cR0 = []) (hg : fetch_fred_data gR0 = [])
    (hu : fetch_fred_data uR0 = []) (hf : fetch_fred_data fR0 = [])
    (hrows : rows ≠ []) :
    (refreshReadings cR0 gR0 uR0 fR0 rows jan1).1 =
      { latest_cpi := 3, cpi_12mo_stable := false, cpi_prov := .fallback,
        gdp_growth := 4, gdp_low := false, gdp_prov := .fallback,
        latest_unemp := 4.4, unemp_rising := false, cpi_accel := false,
        unemp_prov := .fallback,
        latest_fed := 4, real_rate_spread := 1, narrow_real := true,
        fed_prov := .fallback } ∧
    (refreshReadings cR0 gR0 uR0 fR0 rows jan1).2 =
      (refreshReadings cR gR uR fR rows jan1).2 ∧
    (refreshReadings cR0 gR0 uR0 fR0 rows jan1).2.prov = Provenance.live ∧
    (refreshReadings cR gR uR fR [] jan1).1 =
      (refreshReadings cR gR uR fR rows jan1).1 := by
  refine ⟨?_, rfl, ?_, rfl⟩
  · simp [refreshReadings, hc, hg, hu, hf, computeMacroReadings]
  · cases rows with
    | nil => exact absurd rfl hrows
    | cons r rs => rfl

/-- Witness for C5 at a concrete input: all four macro responses raising, one
live market row. -/
theorem C5_fallback_groups_independent_witness :
    fetch_fred_data none = ([] : List Obs) ∧
    ([⟨0, 4, 100, 300⟩] : List Row) ≠ [] ∧
    (refreshReadings none none none none [⟨0, 4, 100, 300⟩] 0).1.latest_cpi = 3 ∧
    (refreshReadings none none none none [⟨0, 4, 100, 300⟩] 0).2.prov =
      Provenance.live := by
  have h := C5_fallback_groups_independent none none none none none none none
    none [⟨0, 4, 100, 300⟩] 0 rfl rfl rfl rfl (by simp)
  exact ⟨rfl, by simp, by rw [h.1], h.2.2.1⟩

/-- C1 (code bug): the fallback boundary does not hold on the market side.  A
raising Yahoo download propagates uncaught (fetch_yahoo_data has no handler),
so nothing renders; and when the download returns an empty table, the empty
branch leaves rise_18mo, spy_ytd and crb_12mo unassigned, so the five verdicts
and the headline still render but the status-table build raises NameError
instead of substituting benchmark constants. -/
theorem C1_fallback_boundary_broken :
    refresh (some [⟨0, 3⟩]) (some [⟨0, 4⟩]) (some [⟨0, 4.4⟩]) (some [⟨0, 4⟩])
      (.error "ConnectionError") 0 = .error "ConnectionError" ∧
    refresh (some [⟨0, 3⟩]) (some [⟨0, 4⟩]) (some [⟨0, 4.4⟩]) (some [⟨0, 4⟩])
      (.ok []) 0 =
      .ok { verdicts := ⟨Tier.green, Tier.green, Tier.green, Tier.green, Tier.yellow⟩,
            flashing := 0,
            table := .error "NameError" } := by
  constructor
  · rfl
  · norm_num [refresh, refreshReadings, fetch_fred_data, sortByDate,
      insertByDate, computeMacroReadings, cpi_stuck, deriveMarketVars,
      evalFromReadings, evalSignals, flashing_count, verdictList,
      build_df_status]
    decide

end StagWatch
